import Mathlib

/-!
Verification development for the IndustrialScanner-Lite classification and
aggregation engine.

The Python sources are shallowly embedded:

* Python `bytes` values become `List Nat` (byte values 0..255);
* Python `str` values that are inspected character by character become
  `List Char` (obtained from Lean string literals via `String.data`);
* fallible Python code (exceptions) becomes `Option`;
* the network transport and the file system, which the code only consumes,
  become explicit parameters (outcome values / lookup functions).

Embedded modules:
 - `src/dnp3_monitor/parsers.py`   (DNP3 payload classification)
 - `src/s7_comm_analyzer/parsers.py` (S7Comm payload classification)
 - `src/s7_comm_analyzer/s7_analyze.py` (suspect decision for S7 records)
 - `src/dnp3_monitor/dnp3_analyze.py` (per-capture aggregation)
 - `src/modbus_scanner/utils.py`   (`expand_targets`)
 - `src/modbus_scanner/modbus_scan.py` (`probe_host`)
 - `src/build_global_index.py`     (`collect_summary`)
 - `src/build_dnp3_index.py`       (`load_reports`)
-/

/-- Character list of a Lean string literal; used to embed Python `str`. -/
def pyStr (s : String) : List Char := s.data

/-- Test whether `p` is an initial segment of `l` (Python `l.startswith(p)`
and the anchored step of the substring test). -/
def listStartsWith {α : Type} [DecidableEq α] : List α → List α → Bool
  | [], _ => true
  | _ :: _, [] => false
  | a :: p, b :: l => if a = b then listStartsWith p l else false

/-- Python substring / subbytes containment `sub in l` (contiguous). -/
def containsSub {α : Type} [DecidableEq α] (l sub : List α) : Bool :=
  listStartsWith sub l ||
    match l with
    | [] => false
    | _ :: t => containsSub t sub

/-- Test whether `p` is a final segment of `l` (Python `l.endswith(p)`). -/
def listEndsWith {α : Type} [DecidableEq α] (p l : List α) : Bool :=
  listStartsWith p.reverse l.reverse

/-- Python `str.strip()` restricted to ASCII whitespace (the inputs the
scanner handles are ASCII). -/
def pyTrim (l : List Char) : List Char :=
  ((l.dropWhile Char.isWhitespace).reverse.dropWhile Char.isWhitespace).reverse

/-- Split on a single-character separator, keeping empty fields, exactly as
Python `str.split(sep)` does for a one-character `sep`.  All separators used
by the scanner (`","`, `"."`, `"/"`, newline) are one character. -/
def splitOnChar (c : Char) : List Char → List (List Char)
  | [] => [[]]
  | a :: t =>
    let r := splitOnChar c t
    if a = c then [] :: r
    else
      match r with
      | [] => [[a]]
      | h :: t2 => (a :: h) :: t2

/-- Numeric value of a decimal digit list (callers check digits first). -/
def digitsToNat (l : List Char) : Nat :=
  l.foldl (fun a c => a * 10 + (c.toNat - 48)) 0

/-- Python `int(s)` for non-negative decimal strings: every character a
digit and at least one digit, otherwise a `ValueError` (here `none`). -/
def pyToNat (l : List Char) : Option Nat :=
  if l ≠ [] ∧ l.all Char.isDigit then some (digitsToNat l) else none

/-- Decimal digit to its character. -/
def digitChar10 : Nat → Char
  | 0 => '0'
  | 1 => '1'
  | 2 => '2'
  | 3 => '3'
  | 4 => '4'
  | 5 => '5'
  | 6 => '6'
  | 7 => '7'
  | 8 => '8'
  | _ => '9'

/-- Fuel-driven decimal rendering helper (fuel bounds the digit count). -/
def natToDecAux : Nat → Nat → List Char
  | 0, _ => []
  | fuel + 1, n =>
    if n < 10 then [digitChar10 n]
    else natToDecAux fuel (n / 10) ++ [digitChar10 (n % 10)]

/-- Decimal rendering of a natural number (Python `str(int)`). -/
def natToDec (n : Nat) : List Char := natToDecAux (n + 1) n

/-- Byte string literals appearing in `dnp3_monitor/parsers.py`.
`bREAD` is `b"READ"`, and so on; values are the ASCII codes. -/
def bREAD : List Nat := [0x52, 0x45, 0x41, 0x44]

/-- Byte literal b"WRITE". -/
def bWRITE : List Nat := [0x57, 0x52, 0x49, 0x54, 0x45]

/-- Byte literal b"OPER". -/
def bOPER : List Nat := [0x4F, 0x50, 0x45, 0x52]

/-- Byte literal b"SELECT". -/
def bSELECT : List Nat := [0x53, 0x45, 0x4C, 0x45, 0x43, 0x54]

/-- Byte literal b"UNSOL". -/
def bUNSOL : List Nat := [0x55, 0x4E, 0x53, 0x4F, 0x4C]

/-- Byte literal b"COLD". -/
def bCOLD : List Nat := [0x43, 0x4F, 0x4C, 0x44]

/-- Byte literal b"WARM". -/
def bWARM : List Nat := [0x57, 0x41, 0x52, 0x4D]

/-- Byte literal b"CLEAR". -/
def bCLEAR : List Nat := [0x43, 0x4C, 0x45, 0x41, 0x52]

/-- Byte literal b"RESTART". -/
def bRESTART : List Nat := [0x52, 0x45, 0x53, 0x54, 0x41, 0x52, 0x54]

/-- Byte literal b"DNP". -/
def bDNP : List Nat := [0x44, 0x4E, 0x50]

/-- The module constant `SUSPECT_FUNCS` of `dnp3_monitor/parsers.py`
(a Python set; membership is all the code uses it for). -/
def DNP3_SUSPECT_FUNCS : List String :=
  ["Operate", "Write", "EnableUnsolicited", "ColdRestart", "WarmRestart",
   "ClearRestart"]

/-- The module constant `HINTS` of `dnp3_monitor/parsers.py`, paired with
the latin-1 decoding the code appends to the hint list. -/
def DNP3_HINTS : List (List Nat × String) :=
  [(bUNSOL, "UNSOL"), (bOPER, "OPER"), (bRESTART, "RESTART"),
   (bSELECT, "SELECT"), (bREAD, "READ"), (bWRITE, "WRITE"), (bDNP, "DNP")]

/-- Embedding of `_classify_app_function` from `dnp3_monitor/parsers.py`:
the ordered first-match substring heuristic over the raw payload. -/
def dnp3_classify_app_function (payload : List Nat) : String :=
  if payload = [] ∨ payload.length < 8 then "UnknownDNP3"
  else if containsSub payload bREAD = true then "Read"
  else if containsSub payload bWRITE = true then "Write"
  else if containsSub payload bOPER = true then "Operate"
  else if containsSub payload bSELECT = true then "Select"
  else if containsSub payload bUNSOL = true then "EnableUnsolicited"
  else if containsSub payload bCOLD = true ∧ containsSub payload bRESTART = true then
    "ColdRestart"
  else if containsSub payload bWARM = true ∧ containsSub payload bRESTART = true then
    "WarmRestart"
  else if containsSub payload bCLEAR = true ∧ containsSub payload bRESTART = true then
    "ClearRestart"
  else "UnknownDNP3"

/-- Packet record produced by `parse_dnp3_packet` (the dictionary it
returns when the frame has a raw payload). -/
structure Dnp3Record where
  src : String
  dst : String
  function : String
  length : Nat
  hints : List String
  suspect : Bool
deriving DecidableEq

/-- Python `src or "unknown"`: `None` and the empty string both fall back
to `"unknown"`. -/
def orUnknown (s : Option String) : String :=
  match s with
  | some v => if v = "" then "unknown" else v
  | none => "unknown"

/-- Embedding of the body of `parse_dnp3_packet` past the `Raw` check:
classification, the independent hint scan, and the suspect flag. -/
def parse_dnp3_payload (payload : List Nat) (src dst : Option String) :
    Dnp3Record :=
  let func := dnp3_classify_app_function payload
  { src := orUnknown src
    dst := orUnknown dst
    function := func
    length := payload.length
    hints := (DNP3_HINTS.filter fun h => containsSub payload h.1).map fun h => h.2
    suspect := DNP3_SUSPECT_FUNCS.contains func }

/-- Byte literal b"OB1" from `s7_comm_analyzer/parsers.py`. -/
def bOB1 : List Nat := [0x4F, 0x42, 0x31]

/-- Byte literal b"OB". -/
def bOB : List Nat := [0x4F, 0x42]

/-- Byte literal b"DB". -/
def bDB : List Nat := [0x44, 0x42]

/-- Byte literal b"FB". -/
def bFB : List Nat := [0x46, 0x42]

/-- Byte literal b"FC". -/
def bFC : List Nat := [0x46, 0x43]

/-- Byte literal b"System". -/
def bSystem : List Nat := [0x53, 0x79, 0x73, 0x74, 0x65, 0x6D]

/-- Byte literal b"PLC". -/
def bPLC : List Nat := [0x50, 0x4C, 0x43]

/-- Byte literal b"Firmware". -/
def bFirmware : List Nat := [0x46, 0x69, 0x72, 0x6D, 0x77, 0x61, 0x72, 0x65]

/-- Byte literal b"Update". -/
def bUpdate : List Nat := [0x55, 0x70, 0x64, 0x61, 0x74, 0x65]

/-- Byte literal b"Copy". -/
def bCopy : List Nat := [0x43, 0x6F, 0x70, 0x79]

/-- Byte literal b"Rom". -/
def bRom : List Nat := [0x52, 0x6F, 0x6D]

/-- The module constant `FUNC_MAP` of `s7_comm_analyzer/parsers.py`
(`dict.get` becomes an `Option`-valued lookup). -/
def FUNC_MAP (b : Nat) : Option String :=
  if b = 0x04 then some "ReadVar"
  else if b = 0x05 then some "WriteVar"
  else if b = 0x02 then some "Start"
  else if b = 0x03 then some "Stop"
  else if b = 0xF0 then some "SetupComm"
  else none

/-- The module constant `SUSPECT_FUNCS` of `s7_comm_analyzer/parsers.py`,
which is also the literal set tested in `s7_analyze.analyze_pcap`. -/
def S7_SUSPECT_FUNCS : List String :=
  ["WriteVar", "Start", "Stop", "DownloadBlock", "CopyRamToRom",
   "FirmwareUpdate"]

/-- The module constant `BLOCK_HINTS` of `s7_comm_analyzer/parsers.py`,
paired with the latin-1 decodings used for the hint list. -/
def BLOCK_HINTS : List (List Nat × String) :=
  [(bOB1, "OB1"), (bOB, "OB"), (bDB, "DB"), (bFB, "FB"), (bFC, "FC"),
   (bSystem, "System"), (bPLC, "PLC"), (bFirmware, "Firmware"),
   (bUpdate, "Update")]

/-- Embedding of `_guess_function` from `s7_comm_analyzer/parsers.py`.
The function reads `payload[1]` unconditionally after the `0x32` marker
check, so a one-byte payload `b"\x32"` raises `IndexError` in Python;
that exceptional outcome is the `none` value here. -/
def s7_guess_function (payload : List Nat) : Option String :=
  if payload = [] ∨ payload.head? ≠ some 0x32 then some "NonS7Payload"
  else
    match payload[1]? with
    | none => none
    | some func_byte =>
      some (
        if 200 ≤ payload.length ∧
            (BLOCK_HINTS.any fun h => containsSub payload h.1) = true then
          "DownloadBlock"
        else if 800 ≤ payload.length ∧
            (containsSub payload bFirmware = true ∨
             containsSub payload bUpdate = true) then
          "FirmwareUpdate"
        else if 200 ≤ payload.length ∧ containsSub payload bCopy = true ∧
            containsSub payload bRom = true then
          "CopyRamToRom"
        else
          match FUNC_MAP func_byte with
          | some base => base
          | none =>
            if payload.contains 0x05 = true then "WriteVar"
            else if payload.contains 0x04 = true then "ReadVar"
            else "Unknown")

/-- Packet record produced by `parse_s7_packet` (the dictionary it returns
when the packet passes the header checks). -/
structure S7Record where
  src : String
  dst : String
  function_code : String
  length : Nat
  hints : List String
deriving DecidableEq

/-- Embedding of the body of `parse_s7_packet` past the `Raw` check: the
packet is dropped (Python `None`) when the payload is shorter than 10
bytes or does not start with `0x32`; otherwise a record is built.  Under
that guard `_guess_function` cannot raise, so mapping over its `Option`
result loses nothing. -/
def parse_s7_payload (payload : List Nat) (src dst : Option String) :
    Option S7Record :=
  if payload.length < 10 ∨ payload.head? ≠ some 0x32 then none
  else
    (s7_guess_function payload).map fun fn =>
      { src := orUnknown src
        dst := orUnknown dst
        function_code := fn
        length := payload.length
        hints := (BLOCK_HINTS.filter fun h => containsSub payload h.1).map
          fun h => h.2 }

/-- The suspect decision applied to an S7 record by `analyze_pcap` in
`s7_comm_analyzer/s7_analyze.py` (membership of `function_code` in the
literal set written there). -/
def s7_record_is_suspect (r : S7Record) : Bool :=
  S7_SUSPECT_FUNCS.contains r.function_code

/-- Outcome of one bounded Modbus read in `probe_host`
(`modbus_scanner/modbus_scan.py`).  `ok values` is a response with
`isError() == False` (`values` is the decoded `bits`/`registers` field,
`none` when that field is `None`); `errResp` is a `ModbusIOException`
instance or an error response, which the code silently ignores; `exc` is a
raised exception, whose message is appended to the error list. -/
inductive ReadOutcome where
  | ok (values : Option (List Nat))
  | errResp
  | exc (msg : String)
deriving DecidableEq

/-- Outcome of the connection phase of `probe_host`: `client.connect()`
returning `False`, the transport raising, or a usable connection. -/
inductive ConnectOutcome where
  | refused
  | raised (msg : String)
  | ok
deriving DecidableEq

/-- The `reads` sub-dictionary of a probe result: each window is `none`
(Python `None`) or the list of raw values read. -/
structure Reads where
  coils : Option (List Nat)
  discrete_inputs : Option (List Nat)
  holding_registers : Option (List Nat)
  input_registers : Option (List Nat)
deriving DecidableEq

/-- The `exposure` sub-dictionary of a probe result. -/
structure Exposure where
  unauthenticated_read : Bool
  broad_register_access : Bool
deriving DecidableEq

/-- Result dictionary of `probe_host`.  The wall-clock `latency_ms` field
is timing, not data flow, and is not modelled. -/
structure ProbeResult where
  ip : String
  port : Nat
  unit_id : Nat
  reachable : Bool
  reads : Reads
  exposure : Exposure
  errors : List String
deriving DecidableEq

/-- Count of read windows holding a non-empty list, exactly the
`windows_with_data` generator expression in `probe_host`. -/
def windowsWithData (r : Reads) : Nat :=
  [r.coils, r.discrete_inputs, r.holding_registers, r.input_registers].countP
    fun v =>
      match v with
      | some l => decide (0 < l.length)
      | none => false

/-- One read attempt of `probe_host`: on success the window is filled
(empty list when the value field was `None`) and `unauthenticated_read` is
set; an error response is ignored; an exception appends an error string.
`setW` writes the window this attempt targets. -/
def applyRead (res : ProbeResult) (o : ReadOutcome) (errName : String)
    (setW : Reads → Option (List Nat) → Reads) : ProbeResult :=
  match o with
  | .ok values =>
    { res with
      reads := setW res.reads (some (values.getD []))
      exposure := { res.exposure with unauthenticated_read := true } }
  | .errResp => res
  | .exc msg => { res with errors := res.errors ++ [errName ++ msg] }

/-- The empty probe result `probe_host` starts from. -/
def probe_base (ip : String) (port unit_id : Nat) : ProbeResult :=
  { ip := ip, port := port, unit_id := unit_id, reachable := false
    reads := { coils := none, discrete_inputs := none,
               holding_registers := none, input_registers := none }
    exposure := { unauthenticated_read := false,
                  broad_register_access := false }
    errors := [] }

/-- The four sequential read attempts of `probe_host`, performed once the
connection succeeded (so with `reachable` already set). -/
def probe_reads_phase (ip : String) (port unit_id : Nat)
    (rc rdi rh ri : ReadOutcome) : ProbeResult :=
  let res := { probe_base ip port unit_id with reachable := true }
  let res := applyRead res rc "coils_read_error: "
    fun r v => { r with coils := v }
  let res := applyRead res rdi "discrete_inputs_read_error: "
    fun r v => { r with discrete_inputs := v }
  let res := applyRead res rh "holding_registers_read_error: "
    fun r v => { r with holding_registers := v }
  applyRead res ri "input_registers_read_error: "
    fun r v => { r with input_registers := v }

/-- Embedding of `probe_host` from `modbus_scanner/modbus_scan.py`.  The
transport is a parameter: one connection outcome and one outcome per read
window, consumed in the order the code performs the reads. -/
def probe_host (ip : String) (port unit_id : Nat) (conn : ConnectOutcome)
    (rc rdi rh ri : ReadOutcome) : ProbeResult :=
  match conn with
  | .raised msg =>
    { probe_base ip port unit_id with errors := ["probe_error: " ++ msg] }
  | .refused =>
    { probe_base ip port unit_id with errors := ["Connection failed"] }
  | .ok =>
    let res := probe_reads_phase ip port unit_id rc rdi rh ri
    if 2 ≤ windowsWithData res.reads then
      { res with exposure := { res.exposure with broad_register_access := true } }
    else res

/-- Python `ipaddress` octet parsing (`_parse_octet`): decimal digits only,
at most three of them, no leading zero unless the octet is exactly `"0"`,
value at most 255. -/
def parseOctet (s : List Char) : Option Nat :=
  if s = [] then none
  else if ¬ s.all Char.isDigit then none
  else if 3 < s.length then none
  else if 1 < s.length ∧ s.head? = some '0' then none
  else
    let v := digitsToNat s
    if 255 < v then none else some v

/-- Python `ipaddress` IPv4 address parsing (`_ip_int_from_string`):
exactly four dot-separated octets, combined big-endian into one value. -/
def parseIPv4 (s : List Char) : Option Nat :=
  match splitOnChar '.' s with
  | [a, b, c, d] =>
    match parseOctet a, parseOctet b, parseOctet c, parseOctet d with
    | some x, some y, some z, some w => some (((x * 256 + y) * 256 + z) * 256 + w)
    | _, _, _, _ => none
  | _ => none

/-- Python `_prefix_from_prefix_string`: a decimal digit string whose
value is at most 32 (leading zeros are accepted here). -/
def prefix_from_prefix_string (s : List Char) : Option Nat :=
  match pyToNat s with
  | some v => if v ≤ 32 then some v else none
  | none => none

/-- Python `_prefix_from_ip_int`: the length of the run of leading one
bits, defined when the 32-bit value is exactly that run followed by
zeros (the netmask shapes, all-zero and all-ones included). -/
def prefix_from_ip_int (v : Nat) : Option Nat :=
  (List.range 33).find? fun p => v = 2 ^ 32 - 2 ^ (32 - p)

/-- Python `_prefix_from_ip_string`: parse the prefix as a dotted quad and
read it as a netmask, or failing that as a hostmask (its bitwise
complement must be a netmask). -/
def prefix_from_ip_string (s : List Char) : Option Nat :=
  match parseIPv4 s with
  | none => none
  | some v =>
    match prefix_from_ip_int v with
    | some p => some p
    | none => prefix_from_ip_int (v ^^^ (2 ^ 32 - 1))

/-- Python `IPv4Network._make_netmask` for a string argument: first the
decimal prefix-length form, then the netmask/hostmask dotted-quad form. -/
def parseMaskLen (s : List Char) : Option Nat :=
  match prefix_from_prefix_string s with
  | some p => some p
  | none => prefix_from_ip_string s

/-- Python `ipaddress.ip_network(s, strict=False)` over the full IPv4
grammar: a dotted-quad address with an optional prefix written as a
decimal length, a netmask or a hostmask, host bits masked away.  The
result is the pair (network address value, prefix length); `none` is the
`ValueError` the caller catches.  IPv6 literal forms — every one of which
contains a colon — are outside the grammar modelled here (the scanner's
documented inputs are IPv4), so statements about unparseable inputs
assume a colon-free string. -/
def ip_network (s : List Char) : Option (Nat × Nat) :=
  match splitOnChar '/' s with
  | [a] => (parseIPv4 a).map fun v => (v, 32)
  | [a, m] =>
    match parseIPv4 a, parseMaskLen m with
    | some v, some ml => some ((v / 2 ^ (32 - ml)) * 2 ^ (32 - ml), ml)
    | _, _ => none
  | _ => none

/-- Python `IPv4Network.hosts()`: for a prefix of 31 or 32 every address of
the block, otherwise every address strictly between the network and the
broadcast address. -/
def hostsOfNetwork (net ml : Nat) : List Nat :=
  let size := 2 ^ (32 - ml)
  if 31 ≤ ml then (List.range size).map fun i => net + i
  else (List.range (size - 2)).map fun i => net + 1 + i

/-- Python `str(IPv4Address(v))`: dotted-quad decimal rendering. -/
def ipToStr (v : Nat) : List Char :=
  natToDec (v / 2 ^ 24 % 256) ++ '.' :: natToDec (v / 2 ^ 16 % 256) ++
    '.' :: natToDec (v / 2 ^ 8 % 256) ++ '.' :: natToDec (v % 256)

/-- Embedding of `expand_targets` from `modbus_scanner/utils.py`.  The file
system is the parameter `fs` (path contents, `none` when reading raises);
the result is `none` exactly when the `@file` branch raises.  Line
splitting uses the newline character, which together with the per-line
strip agrees with Python `splitlines` on the newline-terminated files the
tool documents. -/
def expand_targets (fs : List Char → Option (List Char)) (arg : List Char) :
    Option (List (List Char)) :=
  let arg := pyTrim arg
  if listStartsWith (pyStr "@") arg = true then
    match fs (arg.drop 1) with
    | none => none
    | some text =>
      some (((splitOnChar '\n' text).map pyTrim).filter fun l => l ≠ [])
  else if arg.contains ',' = true then
    some (((splitOnChar ',' arg).map pyTrim).filter fun t => t ≠ [])
  else
    match ip_network arg with
    | some nm => some ((hostsOfNetwork nm.1 nm.2).map ipToStr)
    | none => some [arg]

/-- The numeric fields one persisted run-summary JSON contributes to the
index builders, with the `dict.get(..., 0)` defaults already applied.
`protocol_packets` stands for the `dnp3_packets` / `s7_packets` field. -/
structure PersistedSummary where
  total_packets : Nat
  protocol_packets : Nat
  suspect_functions : Nat
deriving DecidableEq

/-- One directory entry seen by the index builders: its file name and the
parse outcome (`none` when opening or `json.load` raises). -/
structure SummaryFile where
  fname : List Char
  parsed : Option PersistedSummary
deriving DecidableEq

/-- The `fname.endswith(".json")` filter of the index builders. -/
def endsWithJson (f : List Char) : Bool := listEndsWith (pyStr ".json") f

/-- One iteration of the `collect_summary` loop in
`src/build_global_index.py`.  Note that `total_pcaps += 1` happens before
the `try` block, so an unreadable or malformed `.json` file is still
counted, and the bare `except: pass` records nothing. -/
def collect_summary_step (acc : Nat × Nat × Nat) (f : SummaryFile) :
    Nat × Nat × Nat :=
  if endsWithJson f.fname = true then
    match f.parsed with
    | some d =>
      (acc.1 + 1, acc.2.1 + d.total_packets, acc.2.2 + d.suspect_functions)
    | none => (acc.1 + 1, acc.2.1, acc.2.2)
  else acc

/-- Embedding of `collect_summary` from `src/build_global_index.py` for one
protocol folder: a fold over the directory listing producing
`(total_pcaps, total_packets, suspect)`. -/
def collect_summary (files : List SummaryFile) : Nat × Nat × Nat :=
  files.foldl collect_summary_step (0, 0, 0)

/-- Fuel-driven helper for `replaceSub` (the fuel bounds the scan length). -/
def replaceSubAux (pat rep : List Char) : Nat → List Char → List Char
  | _, [] => []
  | 0, l => l
  | fuel + 1, a :: t =>
    if listStartsWith pat (a :: t) = true ∧ pat ≠ [] then
      rep ++ replaceSubAux pat rep fuel ((a :: t).drop pat.length)
    else a :: replaceSubAux pat rep fuel t

/-- Python `str.replace(pat, rep)` for a non-empty pattern, as used by the
index builders to turn `x.json` into `x.html`. -/
def replaceSub (pat rep l : List Char) : List Char :=
  replaceSubAux pat rep l.length l

/-- One entry of the report list built by `load_reports`
(`src/build_dnp3_index.py`; `build_s7_index.py` is identical).  The `meta`
dictionary is carried through untouched and is not needed here. -/
structure LoadedReport where
  json : List Char
  html : List Char
  summary : PersistedSummary
deriving DecidableEq

/-- One iteration of the `load_reports` loop of `src/build_dnp3_index.py`:
a well-formed `.json` file becomes a report entry; a file whose read or
parse raises is skipped entirely and produces one printed `[WARN]` line,
modelled as the second accumulator component. -/
def load_reports_step (acc : List LoadedReport × List (List Char))
    (f : SummaryFile) : List LoadedReport × List (List Char) :=
  if endsWithJson f.fname = true then
    match f.parsed with
    | some d =>
      (acc.1 ++ [{ json := f.fname
                   html := replaceSub (pyStr ".json") (pyStr ".html") f.fname
                   summary := d }], acc.2)
    | none => (acc.1, acc.2 ++ [pyStr "[WARN] Could not read " ++ f.fname])
  else acc

/-- The fold `load_reports` performs over the directory listing. -/
def load_reports (files : List SummaryFile) :
    List LoadedReport × List (List Char) :=
  files.foldl load_reports_step ([], [])

/-- A captured frame as `analyze_pcap` in `dnp3_monitor/dnp3_analyze.py`
sees it: optional TCP and UDP transport headers carrying (sport, dport),
an optional raw payload, and the network-layer addresses. -/
structure Dnp3Packet where
  tcp : Option (Nat × Nat)
  udp : Option (Nat × Nat)
  raw : Option (List Nat)
  src : Option String
  dst : Option String
deriving DecidableEq

/-- Port test of the admission filter: destination or source port 20000. -/
def is_dnp3_port_match (ports : Option (Nat × Nat)) : Bool :=
  match ports with
  | some sd => sd.2 = 20000 || sd.1 = 20000
  | none => false

/-- Admission filter of `analyze_pcap`: the `if TCP ... elif UDP ...`
chain, equivalent to this disjunction. -/
def is_dnp3_admitted (pkt : Dnp3Packet) : Bool :=
  is_dnp3_port_match pkt.tcp || is_dnp3_port_match pkt.udp

/-- Embedding of `parse_dnp3_packet`: `None` when the frame carries no raw
payload, otherwise the record built from the payload and addresses. -/
def parse_dnp3_packet (pkt : Dnp3Packet) : Option Dnp3Record :=
  match pkt.raw with
  | none => none
  | some payload => some (parse_dnp3_payload payload pkt.src pkt.dst)

/-- The summary accumulator of `analyze_pcap` in
`dnp3_monitor/dnp3_analyze.py`.  `unique_hosts` is a Python set. -/
@[ext] structure Dnp3Summary where
  total_packets : Nat
  dnp3_packets : Nat
  suspect_functions : Nat
  unique_hosts : Finset String
deriving DecidableEq

/-- One loop iteration of `analyze_pcap`: every packet is counted, an
admitted and parsed packet bumps the protocol counter, inserts both
addresses, and bumps the suspect counter when flagged. -/
def dnp3_fold_step (s : Dnp3Summary) (pkt : Dnp3Packet) : Dnp3Summary :=
  let s1 : Dnp3Summary := { s with total_packets := s.total_packets + 1 }
  if is_dnp3_admitted pkt = true then
    match parse_dnp3_packet pkt with
    | some r =>
      { s1 with
        dnp3_packets := s1.dnp3_packets + 1
        unique_hosts := insert r.dst (insert r.src s1.unique_hosts)
        suspect_functions := s1.suspect_functions + (if r.suspect = true then 1 else 0) }
    | none => s1
  else s1

/-- The summary produced by one pass of `analyze_pcap` over a capture. -/
def analyze_pcap_summary (pkts : List Dnp3Packet) : Dnp3Summary :=
  pkts.foldl dnp3_fold_step
    { total_packets := 0, dnp3_packets := 0, suspect_functions := 0,
      unique_hosts := ∅ }

/-- The summaries that actually parse, among the `.json` files of a
directory listing, in listing order: the well-formed contributions. -/
def jsonParsedSummaries (files : List SummaryFile) : List PersistedSummary :=
  files.filterMap fun f =>
    if endsWithJson f.fname = true then f.parsed else none

/-- Consolidated totals as the specification words them, for comparison
with `collect_summary`: the arithmetic sums, over the contributing
well-formed summaries, of the `total_packets` field, the protocol-packets
field and the `suspect_functions` field.  This definition follows the
spec sentence, not the source. -/
def spec_claimed_consolidated_totals (files : List SummaryFile) :
    Nat × Nat × Nat :=
  (((jsonParsedSummaries files).map PersistedSummary.total_packets).sum,
   ((jsonParsedSummaries files).map PersistedSummary.protocol_packets).sum,
   ((jsonParsedSummaries files).map PersistedSummary.suspect_functions).sum)

/-- A 200-byte S7 payload: marker `0x32`, second byte `0x05`, the token
`DB`, zero padding. -/
def c5Payload : List Nat := 0x32 :: 0x05 :: 0x44 :: 0x42 :: List.replicate 196 0

/-- Directory listing with one well-formed and one malformed summary. -/
def c2Files : List SummaryFile :=
  [{ fname := pyStr "good.json", parsed := some ⟨5, 2, 1⟩ },
   { fname := pyStr "bad.json", parsed := none }]

/-- Directory listing with a single well-formed summary whose three fields
are pairwise distinct. -/
def c3Files : List SummaryFile :=
  [{ fname := pyStr "a.json", parsed := some ⟨5, 3, 1⟩ }]

/-- An admitted DNP3 frame carrying a WRITE payload. -/
def pktA : Dnp3Packet :=
  { tcp := some (49152, 20000), udp := none
    raw := some [0x57, 0x52, 0x49, 0x54, 0x45, 0x00, 0x00, 0x00]
    src := some "10.0.0.1", dst := some "10.0.0.2" }

/-- A frame on unrelated ports (not admitted). -/
def pktB : Dnp3Packet :=
  { tcp := some (1234, 80), udp := none, raw := some [0x01, 0x02]
    src := some "10.0.0.3", dst := some "10.0.0.4" }

/-- An admitted frame with no raw payload (parser returns `None`). -/
def pktC : Dnp3Packet :=
  { tcp := none, udp := some (20000, 5000), raw := none
    src := some "10.0.0.5", dst := none }

/-- A payload shorter than eight bytes classifies as the sentinel. -/
theorem dnp3_classify_short (p : List Nat) (h : p.length < 8) :
    dnp3_classify_app_function p = "UnknownDNP3" := by
  unfold dnp3_classify_app_function
  rw [if_pos (Or.inr h)]

/-- The function-code table never maps to `FirmwareUpdate`. -/
theorem FUNC_MAP_ne_firmware (b : Nat) :
    FUNC_MAP b ≠ some "FirmwareUpdate" := by
  unfold FUNC_MAP
  repeat' split
  all_goals decide

/-- Core of claim C9: the classifier cannot produce `FirmwareUpdate`,
because its guard implies the earlier `DownloadBlock` guard. -/
theorem s7_never_firmware (p : List Nat) :
    s7_guess_function p ≠ some "FirmwareUpdate" := by
  unfold s7_guess_function
  split
  · intro h
    exact absurd (Option.some.inj h) (by decide)
  next hcond =>
    cases h1 : p[1]? with
    | none => exact fun h => Option.noConfusion h
    | some fb =>
      intro h
      have h2 := Option.some.inj h
      by_cases hd : 200 ≤ p.length ∧
          (BLOCK_HINTS.any fun x => containsSub p x.1) = true
      · rw [if_pos hd] at h2
        exact absurd h2 (by decide)
      · rw [if_neg hd] at h2
        by_cases hf : 800 ≤ p.length ∧
            (containsSub p bFirmware = true ∨ containsSub p bUpdate = true)
        · apply hd
          refine ⟨by omega, List.any_eq_true.mpr ?_⟩
          rcases hf.2 with hFw | hUp
          · exact ⟨(bFirmware, "Firmware"), by decide, hFw⟩
          · exact ⟨(bUpdate, "Update"), by decide, hUp⟩
        · rw [if_neg hf] at h2
          by_cases hc : 200 ≤ p.length ∧ containsSub p bCopy = true ∧
              containsSub p bRom = true
          · rw [if_pos hc] at h2
            exact absurd h2 (by decide)
          · rw [if_neg hc] at h2
            cases hb : FUNC_MAP fb with
            | some base =>
              simp only [hb] at h2
              exact FUNC_MAP_ne_firmware fb (h2 ▸ hb)
            | none =>
              simp only [hb] at h2
              by_cases h05 : p.contains 0x05 = true
              · rw [if_pos h05] at h2
                exact absurd h2 (by decide)
              · rw [if_neg h05] at h2
                by_cases h04 : p.contains 0x04 = true
                · rw [if_pos h04] at h2
                  exact absurd h2 (by decide)
                · rw [if_neg h04] at h2
                  exact absurd h2 (by decide)

/-- Claim C9: for every payload, the S7Comm classifier never returns
`FirmwareUpdate` — the guard of that branch (length at least 800 and a
`Firmware`/`Update` token) already satisfies the earlier `DownloadBlock`
guard (length at least 200 and a block-hint token), so the branch is
unreachable.  Stated as a boolean disequality over all payloads. -/
theorem c9_firmware_update_unreachable (p : List Nat) :
    (s7_guess_function p == some "FirmwareUpdate") = false := by
  rw [beq_eq_false_iff_ne]
  exact s7_never_firmware p

/-- Claim C5: an S7Comm payload of length at least 200 that starts with
`0x32`, contains the token `DB` and has second byte `0x05` classifies as
`DownloadBlock`, not `WriteVar`: the size/token rule precedes the
byte-table rule. -/
theorem c5_db_token_precedence (p : List Nat) (hlen : 200 ≤ p.length)
    (hhead : p.head? = some 0x32) (hdb : containsSub p bDB = true)
    (hbyte : p[1]? = some 0x05) :
    s7_guess_function p = some "DownloadBlock" ∧
    s7_guess_function p ≠ some "WriteVar" := by
  have hne : ¬(p = [] ∨ p.head? ≠ some 0x32) := by
    push_neg
    exact ⟨fun he => by subst he; exact absurd hlen (by decide), hhead⟩
  have hres : s7_guess_function p = some "DownloadBlock" := by
    unfold s7_guess_function
    rw [if_neg hne, hbyte]
    simp only []
    rw [if_pos ⟨hlen, List.any_eq_true.mpr ⟨(bDB, "DB"), by decide, hdb⟩⟩]
  exact ⟨hres, by rw [hres]; decide⟩

set_option maxRecDepth 4000 in
/-- Claim C5 witness: the concrete 200-byte payload `c5Payload`. -/
theorem c5_db_token_precedence_witness :
    s7_guess_function c5Payload = some "DownloadBlock" ∧
    s7_guess_function c5Payload ≠ some "WriteVar" :=
  c5_db_token_precedence c5Payload (by decide) (by decide) (by decide)
    (by decide)

/-- Claim C1 (amended): a DNP3 payload shorter than 8 bytes classifies as
the sentinel `UnknownDNP3` with `suspect = false` (the hint list is filled
by an independent token scan and may be non-empty); an S7Comm payload
shorter than 10 bytes or not starting with `0x32` produces no record at
all from `parse_s7_packet`; and `_guess_function` returns the sentinel
`NonS7Payload` for any payload that is empty or does not start with
`0x32`. -/
theorem c1_short_payload_sentinel :
    (∀ (p : List Nat) (s d : Option String), p.length < 8 →
      (parse_dnp3_payload p s d).function = "UnknownDNP3" ∧
        (parse_dnp3_payload p s d).suspect = false) ∧
    (∀ (p : List Nat) (s d : Option String),
      p.length < 10 ∨ p.head? ≠ some 0x32 → parse_s7_payload p s d = none) ∧
    (∀ p : List Nat, p = [] ∨ p.head? ≠ some 0x32 →
      s7_guess_function p = some "NonS7Payload") := by
  refine ⟨fun p s d h => ?_, fun p s d h => ?_, fun p h => ?_⟩
  · constructor
    · simp only [parse_dnp3_payload]
      exact dnp3_classify_short p h
    · simp only [parse_dnp3_payload, dnp3_classify_short p h]
      decide
  · unfold parse_s7_payload
    rw [if_pos h]
  · unfold s7_guess_function
    rw [if_pos h]

/-- Claim C1 counterexample: the four-byte payload `b"READ"` is shorter
than the DNP3 minimum, classifies as the sentinel, and still carries a
non-empty hint set, refuting the claimed empty hint set. -/
theorem c1_short_payload_counterexample :
    ([0x52, 0x45, 0x41, 0x44] : List Nat).length < 8 ∧
    (parse_dnp3_payload [0x52, 0x45, 0x41, 0x44] none none).function =
      "UnknownDNP3" ∧
    (parse_dnp3_payload [0x52, 0x45, 0x41, 0x44] none none).hints =
      ["READ"] ∧
    (parse_dnp3_payload [0x52, 0x45, 0x41, 0x44] none none).hints ≠ [] := by
  decide

/-- Claim C1 witness: the amended theorem applied to concrete short
payloads of both protocols. -/
theorem c1_short_payload_sentinel_witness :
    ((parse_dnp3_payload [0, 0, 0, 0] none none).function = "UnknownDNP3" ∧
      (parse_dnp3_payload [0, 0, 0, 0] none none).suspect = false) ∧
    parse_s7_payload [0x99, 0x05] none none = none ∧
    s7_guess_function [] = some "NonS7Payload" :=
  ⟨c1_short_payload_sentinel.1 [0, 0, 0, 0] none none (by decide),
   c1_short_payload_sentinel.2.1 [0x99, 0x05] none none (by decide),
   c1_short_payload_sentinel.2.2 [] (by decide)⟩

/-- Claim C6: for every classified payload, the DNP3 record's `suspect`
flag is true exactly when the returned operation name belongs to the fixed
DNP3 suspect set, and the S7 suspect decision applied by `analyze_pcap` is
true exactly when the record's operation name belongs to the fixed S7
suspect set; neither is computed any other way. -/
theorem c6_suspect_iff_member :
    (∀ (p : List Nat) (s d : Option String),
      ((parse_dnp3_payload p s d).suspect = true ↔
        (parse_dnp3_payload p s d).function ∈ DNP3_SUSPECT_FUNCS)) ∧
    (∀ r : S7Record,
      (s7_record_is_suspect r = true ↔
        r.function_code ∈ S7_SUSPECT_FUNCS)) := by
  constructor
  · intro p s d
    simp only [parse_dnp3_payload]
    exact List.elem_iff
  · intro r
    unfold s7_record_is_suspect
    exact List.elem_iff

/-- One read attempt never touches the `broad_register_access` flag. -/
theorem applyRead_broad (r : ProbeResult) (o : ReadOutcome) (n : String)
    (f : Reads → Option (List Nat) → Reads) :
    (applyRead r o n f).exposure.broad_register_access =
      r.exposure.broad_register_access := by
  cases o <;> rfl

/-- One read attempt never touches the `reachable` flag. -/
theorem applyRead_reachable (r : ProbeResult) (o : ReadOutcome) (n : String)
    (f : Reads → Option (List Nat) → Reads) :
    (applyRead r o n f).reachable = r.reachable := by
  cases o <;> rfl

/-- The read phase leaves `broad_register_access` false. -/
theorem probe_reads_phase_broad (ip : String) (port unit_id : Nat)
    (rc rdi rh ri : ReadOutcome) :
    (probe_reads_phase ip port unit_id rc rdi rh ri).exposure.broad_register_access
      = false := by
  simp [probe_reads_phase, applyRead_broad, probe_base]

/-- The read phase leaves `reachable` true. -/
theorem probe_reads_phase_reachable (ip : String) (port unit_id : Nat)
    (rc rdi rh ri : ReadOutcome) :
    (probe_reads_phase ip port unit_id rc rdi rh ri).reachable = true := by
  simp [probe_reads_phase, applyRead_reachable, probe_base]

/-- If no read succeeded (so `unauthenticated_read` stayed false) then no
window was filled at all. -/
theorem probe_reads_phase_no_data (ip : String) (port unit_id : Nat)
    (rc rdi rh ri : ReadOutcome) :
    (probe_reads_phase ip port unit_id rc rdi rh ri).exposure.unauthenticated_read
        = false →
      windowsWithData (probe_reads_phase ip port unit_id rc rdi rh ri).reads
        = 0 := by
  cases rc <;> cases rdi <;> cases rh <;> cases ri <;>
    simp [probe_reads_phase, applyRead, probe_base, windowsWithData]

/-- Claim C7: in every probe result, `broad_register_access` is true
exactly when at least two of the four read windows are non-empty lists;
this covers connection failures (zero windows) and every combination of
populated windows. -/
theorem c7_broad_iff_two_windows (ip : String) (port unit_id : Nat)
    (conn : ConnectOutcome) (rc rdi rh ri : ReadOutcome) :
    ((probe_host ip port unit_id conn rc rdi rh ri).exposure.broad_register_access
        = true ↔
      2 ≤ windowsWithData (probe_host ip port unit_id conn rc rdi rh ri).reads) := by
  cases conn with
  | raised m => simp [probe_host, windowsWithData, probe_base]
  | refused => simp [probe_host, windowsWithData, probe_base]
  | ok =>
    simp only [probe_host]
    split
    next h => simp [h]
    next h => simp [probe_reads_phase_broad, h]

/-- Claim C10: every probe result satisfies the implication chain between
its fields: broad register access implies an unauthenticated read and
reachability; an unreachable host has all four read windows absent and
both exposure flags false. -/
theorem c10_probe_result_chain (ip : String) (port unit_id : Nat)
    (conn : ConnectOutcome) (rc rdi rh ri : ReadOutcome) :
    ((probe_host ip port unit_id conn rc rdi rh ri).exposure.broad_register_access
        = true →
      (probe_host ip port unit_id conn rc rdi rh ri).exposure.unauthenticated_read
        = true ∧
      (probe_host ip port unit_id conn rc rdi rh ri).reachable = true) ∧
    ((probe_host ip port unit_id conn rc rdi rh ri).reachable = false →
      (probe_host ip port unit_id conn rc rdi rh ri).reads.coils = none ∧
      (probe_host ip port unit_id conn rc rdi rh ri).reads.discrete_inputs = none ∧
      (probe_host ip port unit_id conn rc rdi rh ri).reads.holding_registers = none ∧
      (probe_host ip port unit_id conn rc rdi rh ri).reads.input_registers = none ∧
      (probe_host ip port unit_id conn rc rdi rh ri).exposure.unauthenticated_read
        = false ∧
      (probe_host ip port unit_id conn rc rdi rh ri).exposure.broad_register_access
        = false) := by
  cases conn with
  | raised m => simp [probe_host, probe_base]
  | refused => simp [probe_host, probe_base]
  | ok =>
    constructor
    · intro hb
      simp only [probe_host] at hb ⊢
      split at hb
      next h =>
        split
        next =>
          refine ⟨?_, by simp [probe_reads_phase_reachable]⟩
          by_contra hu
          simp only [Bool.not_eq_true] at hu
          have h0 := probe_reads_phase_no_data ip port unit_id rc rdi rh ri
            (by simpa using hu)
          omega
        next h2 => exact absurd h h2
      next => exact absurd hb (by simp [probe_reads_phase_broad])
    · intro hr
      exfalso
      simp only [probe_host] at hr
      revert hr
      split <;> simp [probe_reads_phase_reachable]

/-- Claim C10 witness: a probe with two populated windows exercises the
first implication; a refused connection exercises the second. -/
theorem c10_probe_result_chain_witness :
    ((probe_host "h" 502 1 ConnectOutcome.ok (ReadOutcome.ok (some [1]))
        (ReadOutcome.ok (some [1])) ReadOutcome.errResp
        ReadOutcome.errResp).exposure.unauthenticated_read = true ∧
      (probe_host "h" 502 1 ConnectOutcome.ok (ReadOutcome.ok (some [1]))
        (ReadOutcome.ok (some [1])) ReadOutcome.errResp
        ReadOutcome.errResp).reachable = true) ∧
    ((probe_host "h" 502 1 ConnectOutcome.refused ReadOutcome.errResp
        ReadOutcome.errResp ReadOutcome.errResp
        ReadOutcome.errResp).reads.coils = none ∧
      (probe_host "h" 502 1 ConnectOutcome.refused ReadOutcome.errResp
        ReadOutcome.errResp ReadOutcome.errResp
        ReadOutcome.errResp).reads.discrete_inputs = none ∧
      (probe_host "h" 502 1 ConnectOutcome.refused ReadOutcome.errResp
        ReadOutcome.errResp ReadOutcome.errResp
        ReadOutcome.errResp).reads.holding_registers = none ∧
      (probe_host "h" 502 1 ConnectOutcome.refused ReadOutcome.errResp
        ReadOutcome.errResp ReadOutcome.errResp
        ReadOutcome.errResp).reads.input_registers = none ∧
      (probe_host "h" 502 1 ConnectOutcome.refused ReadOutcome.errResp
        ReadOutcome.errResp ReadOutcome.errResp
        ReadOutcome.errResp).exposure.unauthenticated_read = false ∧
      (probe_host "h" 502 1 ConnectOutcome.refused ReadOutcome.errResp
        ReadOutcome.errResp ReadOutcome.errResp
        ReadOutcome.errResp).exposure.broad_register_access = false) :=
  ⟨(c10_probe_result_chain "h" 502 1 ConnectOutcome.ok
      (ReadOutcome.ok (some [1])) (ReadOutcome.ok (some [1]))
      ReadOutcome.errResp ReadOutcome.errResp).1 (by decide),
   (c10_probe_result_chain "h" 502 1 ConnectOutcome.refused
      ReadOutcome.errResp ReadOutcome.errResp ReadOutcome.errResp
      ReadOutcome.errResp).2 (by decide)⟩

/-- Folding two packets into the summary commutes: counters are sums and
the host set is built by insertion. -/
theorem dnp3_fold_step_comm (s : Dnp3Summary) (a b : Dnp3Packet) :
    dnp3_fold_step (dnp3_fold_step s a) b =
      dnp3_fold_step (dnp3_fold_step s b) a := by
  unfold dnp3_fold_step
  by_cases ha : is_dnp3_admitted a = true <;>
    by_cases hb : is_dnp3_admitted b = true <;>
      cases hpa : parse_dnp3_packet a <;>
        cases hpb : parse_dnp3_packet b <;>
          simp [ha, hb, hpa, hpb] <;>
            and_intros <;>
              first
              | omega
              | (ext x
                 simp only [Finset.mem_insert]
                 tauto)

/-- Folding a list of packets is invariant under permutation, for any
starting accumulator. -/
theorem dnp3_foldl_perm {l₁ l₂ : List Dnp3Packet} (h : l₁.Perm l₂) :
    ∀ s : Dnp3Summary,
      l₁.foldl dnp3_fold_step s = l₂.foldl dnp3_fold_step s := by
  induction h with
  | nil => intro s; rfl
  | cons x _ ih =>
    intro s
    simp only [List.foldl_cons]
    exact ih _
  | swap x y l =>
    intro s
    simp only [List.foldl_cons]
    rw [dnp3_fold_step_comm]
  | trans _ _ ih₁ ih₂ =>
    intro s
    rw [ih₁ s, ih₂ s]

/-- Claim C8: folding any finite sequence of packet records into a run
summary is order-insensitive — permuted inputs produce identical counters
and an identical unique-host set. -/
theorem c8_fold_perm_invariant (l₁ l₂ : List Dnp3Packet) (h : l₁.Perm l₂) :
    analyze_pcap_summary l₁ = analyze_pcap_summary l₂ :=
  dnp3_foldl_perm h _

/-- Claim C8 witness: the concrete captures `[A, B, C]` and `[C, A, B]`
fold to the same summary. -/
theorem c8_fold_perm_invariant_witness :
    analyze_pcap_summary [pktA, pktB, pktC] =
      analyze_pcap_summary [pktC, pktA, pktB] :=
  c8_fold_perm_invariant [pktA, pktB, pktC] [pktC, pktA, pktB] (by decide)

/-- Characterization of the `collect_summary` fold from any accumulator:
the first component counts every `.json` file (well-formed or not), the
other two sum the fields of the well-formed summaries only. -/
theorem collect_summary_foldl (files : List SummaryFile) :
    ∀ acc : Nat × Nat × Nat,
      files.foldl collect_summary_step acc =
        (acc.1 + files.countP (fun f => endsWithJson f.fname),
         acc.2.1 +
           ((jsonParsedSummaries files).map PersistedSummary.total_packets).sum,
         acc.2.2 +
           ((jsonParsedSummaries files).map
             PersistedSummary.suspect_functions).sum) := by
  induction files with
  | nil => intro acc; simp [jsonParsedSummaries]
  | cons f t ih =>
    intro acc
    rw [List.foldl_cons, ih]
    unfold collect_summary_step jsonParsedSummaries
    by_cases hj : endsWithJson f.fname = true
    · cases hp : f.parsed with
      | some d =>
        simp only [hj, hp, if_true, List.countP_cons, List.filterMap_cons,
          jsonParsedSummaries, List.map_cons, List.sum_cons]
        refine Prod.ext ?_ (Prod.ext ?_ ?_) <;> simp [hj] <;> omega
      | none =>
        simp only [hj, hp, if_true, List.countP_cons, List.filterMap_cons,
          jsonParsedSummaries]
        refine Prod.ext ?_ (Prod.ext ?_ ?_) <;> simp [hj] <;> omega
    · simp only [hj, List.countP_cons, List.filterMap_cons, jsonParsedSummaries,
        Bool.false_eq_true, if_false]
      refine Prod.ext ?_ (Prod.ext ?_ ?_) <;> simp [hj]

/-- Characterization of the `load_reports` fold from any accumulator:
well-formed `.json` files become reports in listing order; each malformed
`.json` file contributes exactly one warning and nothing else. -/
theorem load_reports_foldl (files : List SummaryFile) :
    ∀ acc : List LoadedReport × List (List Char),
      files.foldl load_reports_step acc =
        (acc.1 ++ files.filterMap (fun f =>
           if endsWithJson f.fname = true then
             f.parsed.map fun d =>
               { json := f.fname
                 html := replaceSub (pyStr ".json") (pyStr ".html") f.fname
                 summary := d }
           else none),
         acc.2 ++
           (files.filter fun f => endsWithJson f.fname && f.parsed.isNone).map
             fun f => pyStr "[WARN] Could not read " ++ f.fname) := by
  induction files with
  | nil => intro acc; simp
  | cons f t ih =>
    intro acc
    rw [List.foldl_cons, ih]
    unfold load_reports_step
    by_cases hj : endsWithJson f.fname = true
    · cases hp : f.parsed with
      | some d => simp [hj, hp, List.filterMap_cons, List.filter_cons]
      | none => simp [hj, hp, List.filterMap_cons, List.filter_cons]
    · simp [hj, List.filterMap_cons, List.filter_cons]

/-- Claim C2 (amended): index consolidation over a directory containing
malformed summaries never fails and is fully characterized: the global
builder's packet and suspect totals come from the well-formed files only,
but its pcaps-processed count counts every `.json` file — malformed ones
included — and it records no warning (`except: pass`); the per-protocol
builder excludes a malformed file from all output and records exactly one
warning for it. -/
theorem c2_index_tolerates_malformed (files : List SummaryFile) :
    collect_summary files =
      (files.countP (fun f => endsWithJson f.fname),
       ((jsonParsedSummaries files).map PersistedSummary.total_packets).sum,
       ((jsonParsedSummaries files).map PersistedSummary.suspect_functions).sum) ∧
    load_reports files =
      (files.filterMap (fun f =>
         if endsWithJson f.fname = true then
           f.parsed.map fun d =>
             { json := f.fname
               html := replaceSub (pyStr ".json") (pyStr ".html") f.fname
               summary := d }
         else none),
       (files.filter fun f => endsWithJson f.fname && f.parsed.isNone).map
         fun f => pyStr "[WARN] Could not read " ++ f.fname) := by
  constructor
  · unfold collect_summary
    rw [collect_summary_foldl]
    simp
  · unfold load_reports
    rw [load_reports_foldl]
    simp

/-- Claim C2 counterexample: over one well-formed summary (5 packets, one
suspect) and one malformed file, the global builder reports two pcaps
processed, not one — the malformed file contributes to that total, against
the claim that it contributes zero to all totals. -/
theorem c2_malformed_counted_counterexample :
    collect_summary c2Files = (2, 5, 1) ∧
    collect_summary (c2Files.take 1) = (1, 5, 1) ∧
    (collect_summary c2Files).1 ≠ 1 := by
  decide

/-- Claim C3 (amended): over well-formed summaries, each protocol's
consolidated totals are the file count, the sum of the `total_packets`
fields and the sum of the `suspect_functions` fields; the protocol-packets
field is not consolidated by `collect_summary`. -/
theorem c3_totals_are_sums (ds : List PersistedSummary) :
    collect_summary (ds.map fun d => { fname := pyStr "r.json", parsed := some d }) =
      (ds.length,
       (ds.map PersistedSummary.total_packets).sum,
       (ds.map PersistedSummary.suspect_functions).sum) := by
  have hj : endsWithJson (pyStr "r.json") = true := by decide
  unfold collect_summary
  rw [collect_summary_foldl]
  simp [jsonParsedSummaries, List.countP_map, List.filterMap_map,
    Function.comp_def, hj, List.countP_eq_length, List.filterMap_some]

/-- Claim C3 counterexample: for a single well-formed summary with
`total_packets = 5`, protocol packets `3` and `suspect_functions = 1`, the
consolidated totals are `(1, 5, 1)` — no component equals the sum `3` of
the protocol-packets field, refuting the claim that the consolidated
totals include it. -/
theorem c3_no_protocol_packets_total_counterexample :
    collect_summary c3Files = (1, 5, 1) ∧
    spec_claimed_consolidated_totals c3Files = (5, 3, 1) ∧
    collect_summary c3Files ≠ spec_claimed_consolidated_totals c3Files ∧
    (collect_summary c3Files).1 ≠
      (spec_claimed_consolidated_totals c3Files).2.1 ∧
    (collect_summary c3Files).2.1 ≠
      (spec_claimed_consolidated_totals c3Files).2.1 ∧
    (collect_summary c3Files).2.2 ≠
      (spec_claimed_consolidated_totals c3Files).2.1 := by
  decide

/-- Claim C4: target expansion supports the three input forms and never
raises for malformed input: the CIDR `10.0.0.0/30` — also in its netmask
and hostmask spellings — yields exactly the two usable host addresses; a
comma-separated list yields the literals in order; the `@file`
indirection yields the non-empty trimmed lines of the file; a colon-free
string the address grammar rejects falls back to a one-element list
holding that string; and for every input not using the `@file`
indirection the expansion always produces a result. -/
theorem c4_expand_targets_forms :
    (∀ fs, expand_targets fs (pyStr "10.0.0.0/30") =
        some [pyStr "10.0.0.1", pyStr "10.0.0.2"] ∧
      expand_targets fs (pyStr "10.0.0.0/255.255.255.252") =
        some [pyStr "10.0.0.1", pyStr "10.0.0.2"] ∧
      expand_targets fs (pyStr "10.0.0.0/0.0.0.3") =
        some [pyStr "10.0.0.1", pyStr "10.0.0.2"]) ∧
    (∀ fs, expand_targets fs (pyStr "10.0.0.1,10.0.0.2") =
      some [pyStr "10.0.0.1", pyStr "10.0.0.2"]) ∧
    (∀ fs (arg text : List Char), pyTrim arg = arg →
      listStartsWith (pyStr "@") arg = true → fs (arg.drop 1) = some text →
      expand_targets fs arg =
        some (((splitOnChar '\n' text).map pyTrim).filter fun l => l ≠ [])) ∧
    (∀ fs (arg : List Char), pyTrim arg = arg →
      listStartsWith (pyStr "@") arg = false → arg.contains ',' = false →
      arg.contains ':' = false → ip_network arg = none →
      expand_targets fs arg = some [arg]) ∧
    (∀ fs (arg : List Char), listStartsWith (pyStr "@") (pyTrim arg) = false →
      (expand_targets fs arg).isSome = true) := by
  refine ⟨fun fs => ⟨?_, ?_, ?_⟩, fun fs => ?_,
    fun fs arg text htrim hat hfs => ?_,
    fun fs arg htrim hat hcomma hcolon hnet => ?_, fun fs arg hat => ?_⟩
  · rfl
  · rfl
  · rfl
  · rfl
  · simp only [expand_targets]
    rw [htrim, if_pos hat, hfs]
  · simp only [expand_targets]
    rw [htrim, if_neg (by simp [hat]), if_neg (ne_true_of_eq_false hcomma),
      hnet]
  · simp only [expand_targets]
    rw [if_neg (by simp [hat])]
    by_cases hc : (pyTrim arg).contains ',' = true
    · rw [if_pos hc]
      rfl
    · rw [if_neg hc]
      cases hnet : ip_network (pyTrim arg) <;> simp

/-- Claim C4 witness: the hypothesis-bearing branches exercised at
concrete inputs — a file indirection, an unparseable literal, and a
no-indirection input. -/
theorem c4_expand_targets_forms_witness :
    expand_targets
        (fun p => if p = pyStr "t.txt" then
          some (pyStr "10.0.0.7\n10.0.0.8") else none)
        (pyStr "@t.txt") =
      some (((splitOnChar '\n' (pyStr "10.0.0.7\n10.0.0.8")).map pyTrim).filter
        fun l => l ≠ []) ∧
    expand_targets (fun _ => none) (pyStr "not-an-ip") =
      some [pyStr "not-an-ip"] ∧
    (expand_targets (fun _ => none) (pyStr "99.99")).isSome = true :=
  ⟨c4_expand_targets_forms.2.2.1 _ _ _ (by decide) (by decide) (by decide),
   c4_expand_targets_forms.2.2.2.1 _ _ (by decide) (by decide) (by decide)
     (by decide) (by decide),
   c4_expand_targets_forms.2.2.2.2 _ _ (by decide)⟩
